import Mathlib

/-!
Verification of the `type_traits` crate (src/lib.rs, src/mem.rs).

The crate is a thin layer over the host language's layout intrinsics
`core::mem::size_of`, `core::mem::align_of` and `core::mem::needs_drop`.
We model a Rust (sized) type as a record carrying the answers those
intrinsics give for it, together with the guarantees the host language
documents for them:

* the minimum alignment is a positive power of two;
* `needs_drop` is a conservative over-approximation: whenever dropping a
  value of the type has an observable side effect, `needs_drop` reports
  `true` (`false` guarantees the absence of drop side effects).

A value of a type is modelled as the type together with an (otherwise
unconstrained) payload; the value-based functions of `src/mem.rs` discard
the payload exactly as the source functions ignore their `&T` argument.

A `const` item of type `()` whose initializer is `assert!(cond)` either
compiles (producing the unit value) or aborts the build; we model such a
constant as an `Option Unit`, where `some ()` is a successful compile and
`none` is the compile-time assertion failure.
-/

namespace TypeTraits

/-- A Rust `Sized` type, as observed through the layout intrinsics of
`core::mem`, bundled with the guarantees the host language provides for
those intrinsics (alignment is a positive power of two; `needs_drop` never
under-reports drop side effects). `hasDropSideEffects` is the semantic
ground truth of whether releasing a value of the type performs observable
cleanup work; `needsDrop` is the intrinsic's (possibly over-approximate)
answer. -/
structure RustType where
  size : Nat
  align : Nat
  needsDrop : Bool
  hasDropSideEffects : Bool
  align_pos : 0 < align
  align_pow2 : ∃ k, align = 2 ^ k
  drop_conservative : hasDropSideEffects = true → needsDrop = true

namespace core.mem

/-- Intrinsic `core::mem::size_of::<T>()`. -/
def size_of (T : RustType) : Nat := T.size

/-- Intrinsic `core::mem::align_of::<T>()`. -/
def align_of (T : RustType) : Nat := T.align

/-- Intrinsic `core::mem::needs_drop::<T>()`. -/
def needs_drop (T : RustType) : Bool := T.needsDrop

end core.mem

/-- `Type::<T>::size` (src/lib.rs): `mem::size_of::<T>()`. -/
def Type'.size (T : RustType) : Nat := core.mem.size_of T

/-- `Type::<T>::align` (src/lib.rs): `mem::align_of::<T>()`. -/
def Type'.align (T : RustType) : Nat := core.mem.align_of T

/-- `Type::<T>::is_zst` (src/lib.rs): `Self::size() == 0`. -/
def Type'.is_zst (T : RustType) : Bool := Type'.size T == 0

/-- `Type::<T>::needs_drop` (src/lib.rs): `mem::needs_drop::<T>()`. -/
def Type'.needs_drop (T : RustType) : Bool := core.mem.needs_drop T

/-- A `const _ : () = assert!(cond);` item: compiles to `()` when `cond`
holds, aborts the build (`none`) otherwise. -/
def constAssert (cond : Bool) : Option Unit :=
  if cond then some () else none

namespace Assert

/-- `Assert::<T>::NO_NEED_DROP` (src/lib.rs):
`assert!(!Type::<T>::needs_drop())`. -/
def NO_NEED_DROP (T : RustType) : Option Unit :=
  constAssert (!Type'.needs_drop T)

/-- `Assert::<T>::IS_NOT_ZST` (src/lib.rs): `assert!(!Type::<T>::is_zst())`. -/
def IS_NOT_ZST (T : RustType) : Option Unit :=
  constAssert (!Type'.is_zst T)

/-- `Assert::<T>::IS_ZST` (src/lib.rs): `assert!(Type::<T>::is_zst())`. -/
def IS_ZST (T : RustType) : Option Unit :=
  constAssert (Type'.is_zst T)

end Assert

namespace Assert2

/-- `Assert2::<L, R>::IS_SAME_SIZE` (src/lib.rs):
`assert!(Type::<L>::size() == Type::<R>::size())`. -/
def IS_SAME_SIZE (L R : RustType) : Option Unit :=
  constAssert (Type'.size L == Type'.size R)

/-- `Assert2::<L, R>::IS_SAME_ALIGN` (src/lib.rs):
`assert!(Type::<L>::align() == Type::<R>::align())`. -/
def IS_SAME_ALIGN (L R : RustType) : Option Unit :=
  constAssert (Type'.align L == Type'.align R)

/-- `Assert2::<L, R>::IS_LEFT_SIZE_GREATER_OR_EQUAL` (src/lib.rs):
`assert!(Type::<L>::size() >= Type::<R>::size())`. -/
def IS_LEFT_SIZE_GREATER_OR_EQUAL (L R : RustType) : Option Unit :=
  constAssert (decide (Type'.size L ≥ Type'.size R))

/-- `Assert2::<L, R>::IS_LEFT_SIZE_LESS` (src/lib.rs):
`assert!(Type::<L>::size() < Type::<R>::size())`. -/
def IS_LEFT_SIZE_LESS (L R : RustType) : Option Unit :=
  constAssert (decide (Type'.size L < Type'.size R))

/-- `Assert2::<L, R>::IS_LEFT_ALIGN_GREATER_OR_EQUAL` (src/lib.rs):
`assert!(Type::<L>::align() >= Type::<R>::align())`. -/
def IS_LEFT_ALIGN_GREATER_OR_EQUAL (L R : RustType) : Option Unit :=
  constAssert (decide (Type'.align L ≥ Type'.align R))

/-- `Assert2::<L, R>::IS_LEFT_ALIGN_LESS` (src/lib.rs):
`assert!(Type::<L>::align() < Type::<R>::align())`. -/
def IS_LEFT_ALIGN_LESS (L R : RustType) : Option Unit :=
  constAssert (decide (Type'.align L < Type'.align R))

end Assert2

/-- A value of a Rust type: its static type together with its bits. Every
operation of the crate ignores `data`, just as the source functions ignore
their `&T` argument. -/
structure Value where
  ty : RustType
  data : Nat

namespace mem

/-- `mem::size_of(_: &T)` (src/mem.rs): `mem::size_of::<T>()` on the
value's static type. -/
def size_of (v : Value) : Nat := core.mem.size_of v.ty

/-- `mem::align_of(_: &T)` (src/mem.rs): `mem::align_of::<T>()` on the
value's static type. -/
def align_of (v : Value) : Nat := core.mem.align_of v.ty

/-- `mem::needs_drop(_: &T)` (src/mem.rs): `mem::needs_drop::<T>()` on the
value's static type. -/
def needs_drop (v : Value) : Bool := core.mem.needs_drop v.ty

end mem

/-- The unit type `()`: zero-sized, alignment 1, no drop. -/
def unitType : RustType :=
  ⟨0, 1, false, false, by decide, ⟨0, rfl⟩, by decide⟩

/-- The type `u8`: one byte, alignment 1, no drop. -/
def u8Type : RustType :=
  ⟨1, 1, false, false, by decide, ⟨0, rfl⟩, by decide⟩

/-- The type `u32`: four bytes, alignment 4, no drop. -/
def u32Type : RustType :=
  ⟨4, 4, false, false, by decide, ⟨2, rfl⟩, by decide⟩

/-- The type `String` on a 64-bit host: three words, word alignment, and a
drop implementation that frees the heap buffer. -/
def stringType : RustType :=
  ⟨24, 8, true, true, by decide, ⟨3, rfl⟩, fun _ => rfl⟩

/-- `constAssert` compiles exactly when its condition holds. -/
theorem constAssert_isSome (cond : Bool) : (constAssert cond).isSome = cond := by
  cases cond <;> rfl

/-- C1: for every type `T`, `Type::<T>::is_zst()` returns `true` if and
only if `Type::<T>::size()` returns `0`. -/
theorem is_zst_iff_size_zero (T : RustType) :
    Type'.is_zst T = true ↔ Type'.size T = 0 := by
  simp [Type'.is_zst]

/-- C2: the value-based operations `size_of(&v)`, `align_of(&v)` and
`needs_drop(&v)` of src/mem.rs return exactly the same results as the type
queries `Type::<T>::size()`, `Type::<T>::align()` and
`Type::<T>::needs_drop()` applied to the value's static type. -/
theorem mem_ops_agree_with_type_queries (v : Value) :
    mem.size_of v = Type'.size v.ty ∧
    mem.align_of v = Type'.align v.ty ∧
    mem.needs_drop v = Type'.needs_drop v.ty :=
  ⟨rfl, rfl, rfl⟩

/-- C3: for every pair of types `(L, R)`, the constant
`Assert2::<L, R>::IS_SAME_SIZE` compiles iff `size(L) = size(R)`, and
`Assert2::<L, R>::IS_LEFT_SIZE_LESS` compiles iff `size(L) < size(R)`. -/
theorem assert2_size_props (L R : RustType) :
    ((Assert2.IS_SAME_SIZE L R).isSome = true ↔ Type'.size L = Type'.size R) ∧
    ((Assert2.IS_LEFT_SIZE_LESS L R).isSome = true ↔ Type'.size L < Type'.size R) := by
  constructor <;>
    simp [Assert2.IS_SAME_SIZE, Assert2.IS_LEFT_SIZE_LESS, constAssert_isSome]

/-- C4: for every pair of types `(L, R)`, exactly one of the following
holds: the `IS_SAME_SIZE` proposition (`size(L) = size(R)`), the
`IS_LEFT_SIZE_LESS` proposition (`size(L) < size(R)`), or `L` strictly
greater (`size(L) > size(R)`). -/
theorem size_trichotomy (L R : RustType) :
    ((Assert2.IS_SAME_SIZE L R).isSome = true ∧
      ¬ (Assert2.IS_LEFT_SIZE_LESS L R).isSome = true ∧
      ¬ Type'.size L > Type'.size R) ∨
    (¬ (Assert2.IS_SAME_SIZE L R).isSome = true ∧
      (Assert2.IS_LEFT_SIZE_LESS L R).isSome = true ∧
      ¬ Type'.size L > Type'.size R) ∨
    (¬ (Assert2.IS_SAME_SIZE L R).isSome = true ∧
      ¬ (Assert2.IS_LEFT_SIZE_LESS L R).isSome = true ∧
      Type'.size L > Type'.size R) := by
  simp only [Assert2.IS_SAME_SIZE, Assert2.IS_LEFT_SIZE_LESS, constAssert_isSome,
    beq_iff_eq, decide_eq_true_eq]
  omega

/-- C5: `needs_drop` is a conservative over-approximation — whenever
`Type::<T>::needs_drop()` returns `false`, releasing a value of `T` has no
observable cleanup side effect (no false negatives). -/
theorem needs_drop_conservative (T : RustType)
    (h : Type'.needs_drop T = false) : T.hasDropSideEffects = false := by
  cases hse : T.hasDropSideEffects with
  | false => rfl
  | true =>
    have hd := T.drop_conservative hse
    simp [Type'.needs_drop, core.mem.needs_drop, hd] at h

/-- Witness for C5: `u8` does not need drop, and indeed has no drop side
effects. -/
theorem needs_drop_conservative_witness :
    u8Type.hasDropSideEffects = false :=
  needs_drop_conservative u8Type rfl

/-- C6: each static-assertion constant compiles exactly when its
proposition is satisfied — referencing it for a violating type or type
pair aborts the build, and a satisfied one compiles to the unit value,
i.e. no runtime artifact. -/
theorem assert_constants_compile_iff (T L R : RustType) :
    ((Assert.NO_NEED_DROP T).isSome = true ↔ Type'.needs_drop T = false) ∧
    ((Assert.IS_NOT_ZST T).isSome = true ↔ Type'.is_zst T = false) ∧
    ((Assert.IS_ZST T).isSome = true ↔ Type'.is_zst T = true) ∧
    ((Assert2.IS_SAME_SIZE L R).isSome = true ↔ Type'.size L = Type'.size R) ∧
    ((Assert2.IS_SAME_ALIGN L R).isSome = true ↔ Type'.align L = Type'.align R) ∧
    ((Assert2.IS_LEFT_SIZE_GREATER_OR_EQUAL L R).isSome = true ↔
      Type'.size L ≥ Type'.size R) ∧
    ((Assert2.IS_LEFT_SIZE_LESS L R).isSome = true ↔ Type'.size L < Type'.size R) ∧
    ((Assert2.IS_LEFT_ALIGN_GREATER_OR_EQUAL L R).isSome = true ↔
      Type'.align L ≥ Type'.align R) ∧
    ((Assert2.IS_LEFT_ALIGN_LESS L R).isSome = true ↔ Type'.align L < Type'.align R) ∧
    (∀ u, Assert.NO_NEED_DROP T = some u → u = ()) := by
  refine ⟨?_, ?_, ?_, ?_, ?_, ?_, ?_, ?_, ?_, fun u _ => rfl⟩ <;>
    simp [Assert.NO_NEED_DROP, Assert.IS_NOT_ZST, Assert.IS_ZST,
      Assert2.IS_SAME_SIZE, Assert2.IS_SAME_ALIGN,
      Assert2.IS_LEFT_SIZE_GREATER_OR_EQUAL, Assert2.IS_LEFT_SIZE_LESS,
      Assert2.IS_LEFT_ALIGN_GREATER_OR_EQUAL, Assert2.IS_LEFT_ALIGN_LESS,
      constAssert_isSome]

/-- C7: for every type `T`, `Type::<T>::align()` is a power of two, and
`Type::<T>::size()` is `0` exactly for zero-sized types (`is_zst`). -/
theorem align_pow2_size_zst (T : RustType) :
    (∃ k, Type'.align T = 2 ^ k) ∧
    (Type'.size T = 0 ↔ Type'.is_zst T = true) := by
  refine ⟨T.align_pow2, ?_⟩
  simp [Type'.is_zst]

/-- C8: the pairwise comparisons are one-directional complements —
`IS_LEFT_SIZE_GREATER_OR_EQUAL` compiles iff `IS_LEFT_SIZE_LESS` does not,
likewise for the alignment pair, and the opposite strict comparison is
obtained by swapping the type arguments. -/
theorem ge_complements_lt (L R : RustType) :
    ((Assert2.IS_LEFT_SIZE_GREATER_OR_EQUAL L R).isSome = true ↔
      ¬ (Assert2.IS_LEFT_SIZE_LESS L R).isSome = true) ∧
    ((Assert2.IS_LEFT_ALIGN_GREATER_OR_EQUAL L R).isSome = true ↔
      ¬ (Assert2.IS_LEFT_ALIGN_LESS L R).isSome = true) ∧
    (Type'.size L > Type'.size R ↔
      (Assert2.IS_LEFT_SIZE_LESS R L).isSome = true) ∧
    (Type'.align L > Type'.align R ↔
      (Assert2.IS_LEFT_ALIGN_LESS R L).isSome = true) := by
  simp only [Assert2.IS_LEFT_SIZE_GREATER_OR_EQUAL, Assert2.IS_LEFT_SIZE_LESS,
    Assert2.IS_LEFT_ALIGN_GREATER_OR_EQUAL, Assert2.IS_LEFT_ALIGN_LESS,
    constAssert_isSome, decide_eq_true_eq, and_true, true_and]
  omega

/-- C10: the value-based operations never read the referenced value — for
any two values of the same static type, `size_of`, `align_of` and
`needs_drop` return identical results. -/
theorem mem_ops_ignore_value (a b : Value) (h : a.ty = b.ty) :
    mem.size_of a = mem.size_of b ∧
    mem.align_of a = mem.align_of b ∧
    mem.needs_drop a = mem.needs_drop b := by
  simp [mem.size_of, mem.align_of, mem.needs_drop, h]

/-- Witness for C10: two `u8` values with different bits give identical
results under all three value-based operations. -/
theorem mem_ops_ignore_value_witness :
    mem.size_of (Value.mk u8Type 0) = mem.size_of (Value.mk u8Type 255) ∧
    mem.align_of (Value.mk u8Type 0) = mem.align_of (Value.mk u8Type 255) ∧
    mem.needs_drop (Value.mk u8Type 0) = mem.needs_drop (Value.mk u8Type 255) :=
  mem_ops_ignore_value (Value.mk u8Type 0) (Value.mk u8Type 255) rfl

end TypeTraits
